import Mathlib

/-
Verification development for the matmul kernel-generation and dispatch
harness of this repository (src/examples/matmul/run.cpp).

Shallow embedding conventions:
  * Machine integers (size_t, u32) are modelled as Nat; the one place where
    overflow could matter (the size_t product 2*M*N*K in the GFLOP/s report)
    is modelled with an explicit `% 2^64`.
  * Floating-point matrix entries are modelled as exact integers (any
    commutative-ring carrier would do): the claims under study are about which
    elements are combined and which indices are touched, not about rounding.
    The one claim that is genuinely about IEEE behaviour (division of the
    throughput metric by a zero elapsed time) is modelled with a small value
    domain `FVal` that has `inf` and `nan` points.
  * Device buffers are modelled as `List Int`, read with `List.getD _ _ 0`.
    Reads that the claims show to be out of range are flagged by explicit
    index-bound propositions, not by the (arbitrary) default value.
  * Strings are modelled as `List Char`.
  * Per-lane WGSL code is embedded as Lean functions of the lane/workgroup
    ids; a cooperative `workgroupBarrier`-delimited load phase is embedded by
    giving the contents of the shared tile as a function of the slot index
    (each slot is written by exactly one lane per phase, so this is exact).
  * gpu.h (the backend abstraction) is not part of src/; the handful of its
    helpers that run.cpp leans on (replaceAll, toString, cdiv) are modelled
    from the spec and marked `Modelled from the spec:` in their doc comments.
-/

set_option maxRecDepth 8000

/-- Shape models gpu::Shape at the rank 3 used throughout run.cpp: an ordered
triple of extents, used both for workgroup sizes and dispatch grids. -/
structure Shape where
  x : Nat
  y : Nat
  z : Nat
deriving DecidableEq

/-- NumType models the gpu::NumType precision tag; run.cpp only uses kf32. -/
inductive NumType where
  | kf32 : NumType
deriving DecidableEq

/-- ShaderCode models gpu::ShaderCode: generated source text paired with the
workgroup shape (run.cpp returns `ShaderCode{codeString, workgroupSize}`). -/
structure ShaderCode where
  code : List Char
  workgroupSize : Shape
deriving DecidableEq

/-- strStarts p t decides whether pattern p is a prefix of text t. -/
def strStarts : List Char → List Char → Bool
  | [], _ => true
  | _ :: _, [] => false
  | p :: ps, c :: cs => p == c && strStarts ps cs

/-- strReplaceF is the fuel-indexed worker for strReplace: at each position,
if the (nonempty) pattern matches, it emits the replacement and skips past the
matched characters, otherwise it keeps the current character and moves on.
It is always called with fuel = length of the text, which suffices because
every step consumes at least one character. -/
def strReplaceF (p r : List Char) : Nat → List Char → List Char
  | 0, t => t
  | _ + 1, [] => []
  | fuel + 1, c :: rest =>
    if strStarts p (c :: rest) && !p.isEmpty then
      r ++ strReplaceF p r fuel (List.drop (p.length - 1) rest)
    else
      c :: strReplaceF p r fuel rest

/-- strReplace p r t replaces every left-to-right occurrence of p in t by r,
the per-pair behaviour of the textual substitution used by run.cpp. -/
def strReplace (p r t : List Char) : List Char := strReplaceF p r t.length t

/-- Modelled from the spec: replaceAll (gpu.h, not under src/) performs the
Template Engine's "purely textual substitution", replacing every occurrence of
each placeholder with its stringified value, one pair after the other. -/
def replaceAll (ps : List (List Char × List Char)) (s : List Char) : List Char :=
  ps.foldl (fun acc pr => strReplace pr.1 pr.2 acc) s

/-- floorSqrt n is the floor of the square root of n, modelling the source's
static_cast<size_t>(sqrt(x)) (math.h sqrt truncated to an integer; exact for
the perfect-square workgroup sizes run.cpp uses). -/
def floorSqrt (n : Nat) : Nat :=
  (List.range (n + 1)).foldl (fun acc r => if r * r ≤ n then r else acc) 0

/-- occursTok p t decides whether pattern p occurs anywhere in text t. -/
def occursTok (p : List Char) : List Char → Bool
  | [] => false
  | c :: rest => strStarts p (c :: rest) || occursTok p rest

/-- digitChar d is the decimal digit character of d % 10. -/
def digitChar (d : Nat) : Char := Char.ofNat (48 + d % 10)

/-- natCharsAux is a fuel-indexed decimal printer (most significant digit
first); fuel n + 1 always suffices for printing n. -/
def natCharsAux : Nat → Nat → List Char → List Char
  | 0, _, acc => acc
  | fuel + 1, n, acc =>
    if n < 10 then digitChar n :: acc
    else natCharsAux fuel (n / 10) (digitChar (n % 10) :: acc)

/-- Modelled from the spec: the "stringified value" of an integer parameter
(decimal notation, as produced by gpu.h toString). -/
def natToChars (n : Nat) : List Char := natCharsAux (n + 1) n []

/-- Modelled from the spec: the stringified "workgroup shape descriptor"
substituted for the workgroupSize placeholder (gpu.h toString on a Shape). -/
def toStringShape (s : Shape) : List Char :=
  natToChars s.x ++ ", ".data ++ natToChars s.y ++ ", ".data ++ natToChars s.z

/-- Modelled from the spec: the stringified precision tag. -/
def toStringNumType : NumType → List Char
  | NumType.kf32 => "f32".data

/-- createMatmul1 embeds run.cpp createMatmul1: textual substitution of the
five placeholders workgroupSize, precision, M, K, N (in source order) into the
given template, paired with the workgroup shape. -/
def createMatmul1 (shaderTemplate : List Char) (M K N : Nat)
    (workgroupSize : Shape) (precision : NumType) : ShaderCode :=
  { code := replaceAll
      [("\x7b\x7bworkgroupSize\x7d\x7d".data, toStringShape workgroupSize),
       ("\x7b\x7bprecision\x7d\x7d".data, toStringNumType precision),
       ("\x7b\x7bM\x7d\x7d".data, natToChars M),
       ("\x7b\x7bK\x7d\x7d".data, natToChars K),
       ("\x7b\x7bN\x7d\x7d".data, natToChars N)] shaderTemplate,
    workgroupSize := workgroupSize }

/-- createMatmul2 embeds run.cpp createMatmul2: the same five placeholders
plus tileSize, whose value is static_cast<size_t>(sqrt(workgroupSize[0])) in
the source, i.e. the floor square root of the FIRST component only. -/
def createMatmul2 (shaderTemplate : List Char) (M K N : Nat)
    (workgroupSize : Shape) (precision : NumType) : ShaderCode :=
  { code := replaceAll
      [("\x7b\x7bworkgroupSize\x7d\x7d".data, toStringShape workgroupSize),
       ("\x7b\x7bprecision\x7d\x7d".data, toStringNumType precision),
       ("\x7b\x7bM\x7d\x7d".data, natToChars M),
       ("\x7b\x7bK\x7d\x7d".data, natToChars K),
       ("\x7b\x7bN\x7d\x7d".data, natToChars N),
       ("\x7b\x7btileSize\x7d\x7d".data, natToChars (floorSqrt workgroupSize.x))]
      shaderTemplate,
    workgroupSize := workgroupSize }

/-- createMatmul3 embeds run.cpp createMatmul3: the five common placeholders
plus the block parameters BM, BK, BN, TM, substituted in source order. -/
def createMatmul3 (shaderTemplate : List Char) (M K N BM BK BN TM : Nat)
    (workgroupSize : Shape) (precision : NumType) : ShaderCode :=
  { code := replaceAll
      [("\x7b\x7bworkgroupSize\x7d\x7d".data, toStringShape workgroupSize),
       ("\x7b\x7bprecision\x7d\x7d".data, toStringNumType precision),
       ("\x7b\x7bM\x7d\x7d".data, natToChars M),
       ("\x7b\x7bK\x7d\x7d".data, natToChars K),
       ("\x7b\x7bN\x7d\x7d".data, natToChars N),
       ("\x7b\x7bBM\x7d\x7d".data, natToChars BM),
       ("\x7b\x7bBK\x7d\x7d".data, natToChars BK),
       ("\x7b\x7bBN\x7d\x7d".data, natToChars BN),
       ("\x7b\x7bTM\x7d\x7d".data, natToChars TM)] shaderTemplate,
    workgroupSize := workgroupSize }

/-- specTileSizeSqrtTotal is the tile size as the SPEC words it for claim
comparison: "the square root of the workgroup's total lane count (the product
of all three Shape components)". -/
def specTileSizeSqrtTotal (w : Shape) : Nat := floorSqrt (w.x * w.y * w.z)

/-- FVal is a small IEEE-flavoured value domain for the throughput metric:
a finite (exact rational) value, infinity, or NaN.  Signs are irrelevant here
because every quantity in the GFLOP/s formula is nonnegative. -/
inductive FVal where
  | fin : Rat → FVal
  | inf : FVal
  | nan : FVal
deriving DecidableEq

/-- fdiv models floating-point division on FVal: division of a nonzero finite
value by zero gives inf, of zero by zero gives nan; nan propagates. -/
def fdiv : FVal → FVal → FVal
  | FVal.nan, _ => FVal.nan
  | _, FVal.nan => FVal.nan
  | FVal.fin a, FVal.fin b =>
    if b = 0 then (if a = 0 then FVal.nan else FVal.inf) else FVal.fin (a / b)
  | FVal.fin _, FVal.inf => FVal.fin 0
  | FVal.inf, FVal.fin _ => FVal.inf
  | FVal.inf, FVal.inf => FVal.nan

/-- fmul models floating-point multiplication on FVal: inf times zero is nan,
inf times a nonzero finite value is inf; nan propagates. -/
def fmul : FVal → FVal → FVal
  | FVal.nan, _ => FVal.nan
  | _, FVal.nan => FVal.nan
  | FVal.fin a, FVal.fin b => FVal.fin (a * b)
  | FVal.inf, FVal.fin b => if b = 0 then FVal.nan else FVal.inf
  | FVal.fin a, FVal.inf => if a = 0 then FVal.nan else FVal.inf
  | FVal.inf, FVal.inf => FVal.inf

/-- isFiniteF holds exactly on finite FVal values. -/
def isFiniteF : FVal → Bool
  | FVal.fin _ => true
  | _ => false

/-- elapsedMs embeds duration_cast<milliseconds> applied to the measured
interval: nanoseconds truncated to whole milliseconds. -/
def elapsedMs (ns : Nat) : Nat := ns / 1000000

/-- flopsNumerator embeds the size_t product 2*M*N*K of the GFLOP/s report,
with the wrap-around of 64-bit unsigned arithmetic made explicit. -/
def flopsNumerator (M N K : Nat) : Nat := (2 * M * N * K) % (2 ^ 64)

/-- gflopsReported embeds the metric computed in runTest:
2*M*N*K / (float(duration.count()) / 1000.0) / 1000000000.0 * nIter,
with ms the truncated whole-millisecond count. -/
def gflopsReported (M N K nIter ms : Nat) : FVal :=
  fmul
    (fdiv
      (fdiv (FVal.fin ((flopsNumerator M N K : Nat) : Rat))
        (fdiv (FVal.fin ((ms : Nat) : Rat)) (FVal.fin 1000)))
      (FVal.fin 1000000000))
    (FVal.fin ((nIter : Nat) : Rat))

/-- Modelled from the spec: cdiv (gpu.h, not under src/) is the ceiling
division used to round the dispatch grid "up to whole workgroups". -/
def cdiv (a b : Nat) : Nat := (a + b - 1) / b

/-- cdivShape is the componentwise ceiling division of shapes (the gpu.h cdiv
overload run.cpp uses to compute dispatch grids for variants 1 and 2). -/
def cdivShape (a b : Shape) : Shape := ⟨cdiv a.x b.x, cdiv a.y b.y, cdiv a.z b.z⟩

/-- grid3 embeds the dispatch grid run.cpp passes to createKernel for
variant 3: nWorkgroups = cdiv(cdiv(M, BM), TM), cdiv(N, BN), 1. -/
def grid3 (M N BM BN TM : Nat) : Shape := ⟨cdiv (cdiv M BM) TM, cdiv N BN, 1⟩

/-- wgLanes is the variant-3 workgroup lane count run.cpp uses:
BM * BN values per workgroup and TM rows per thread give BM*BN/TM threads. -/
def wgLanes (BM BN TM : Nat) : Nat := BM * BN / TM

/-- laneRow is the row of C written by lane idx (accumulator resIdx) of
workgroup row cRow in the variant-3 kernel: the kernel stores accumulator
resIdx at cPtr + (threadRow*TM + resIdx)*N + threadCol with
threadRow = localID.x / BN, so the global row is
cRow*BM + (idx / BN)*TM + resIdx. -/
def laneRow (BM BN TM cRow idx resIdx : Nat) : Nat :=
  cRow * BM + (idx / BN) * TM + resIdx

/-- laneCol is the column of C written by lane idx of workgroup column cCol in
the variant-3 kernel: cCol*BN + threadCol with threadCol = localID.x % BN. -/
def laneCol (BN cCol idx : Nat) : Nat := cCol * BN + idx % BN

/-- m3AIndex is the index of A read by lane idx of workgroup row cRow in
K-chunk t of the variant-3 kernel: A[aPtr + loadRowA*K + loadColA] with
aPtr = cRow*BM*K + t*BK, loadRowA = localID.x / BK, loadColA = localID.x % BK.
The load is NOT masked in the kernel source. -/
def m3AIndex (K BM BK cRow t idx : Nat) : Nat :=
  cRow * BM * K + t * BK + (idx / BK) * K + idx % BK

/-- m3BIndex is the index of B read by lane idx of workgroup column cCol in
K-chunk t of the variant-3 kernel: B[bPtr + loadRowB*K + loadColB] with
bPtr = cCol*BN*K + t*BK.  The load is NOT masked in the kernel source. -/
def m3BIndex (K BN BK cCol t idx : Nat) : Nat :=
  cCol * BN * K + t * BK + (idx / BK) * K + idx % BK

/-- m3CIndex is the index of C written for accumulator resIdx by lane idx of
workgroup (cRow, cCol) in the variant-3 kernel:
C[cPtr + (threadRow*TM + resIdx)*N + threadCol] with
cPtr = cRow*BM*N + cCol*BN.  The store is NOT masked in the kernel source
(only the accumulated VALUE is masked). -/
def m3CIndex (N BM BN TM cRow cCol idx resIdx : Nat) : Nat :=
  cRow * BM * N + cCol * BN + ((idx / BN) * TM + resIdx) * N + idx % BN

/-- specMatmulEntry is the output contract as the SPEC states it for all three
variants: C[i][j] = sum over k of A[i*K+k] * B[j*K+k], with B stored in its
transposed N x K row-major layout. -/
def specMatmulEntry (K : Nat) (A B : List Int) (i j : Nat) : Int :=
  ∑ k ∈ Finset.range K, A.getD (i * K + k) 0 * B.getD (j * K + k) 0

/-- matmul1Total embeds the accumulation of the variant-1 kernel body
(kShaderMatmul1): total starts as A[row*K] * B[col*K] (the source comment
notes this assumes K >= 1) and the loop for k = 1 .. K-1 adds
A[row*K+k] * B[col*K+k]. -/
def matmul1Total (K : Nat) (A B : List Int) (row col : Nat) : Int :=
  A.getD (row * K) 0 * B.getD (col * K) 0 +
    ∑ i ∈ Finset.range (K - 1),
      A.getD (row * K + (i + 1)) 0 * B.getD (col * K + (i + 1)) 0

/-- matmul1Lane embeds one lane of the variant-1 kernel (kShaderMatmul1):
row = globalID.x, col = globalID.y; a lane with row >= M or col >= N returns
before writing; otherwise it writes total to C[row*N + col].  The result is
the (index, value) pair written, or none if the lane writes nothing. -/
def matmul1Lane (M K N : Nat) (A B : List Int) (row col : Nat) :
    Option (Nat × Int) :=
  if M ≤ row ∨ N ≤ col then none
  else some (row * N + col, matmul1Total K A B row col)

/-- numTiles embeds the variant-2 outer loop trip count
(K + tileSize - 1) / tileSize. -/
def numTiles (K T : Nat) : Nat := (K + T - 1) / T

/-- m2AsEntry is the value held by shared tile slot (i, j) of As after the
cooperative load of tile `tile` in the variant-2 kernel (kShaderMatmul2):
slot loadRow*T + loadCol is written by exactly the lane with that
(loadRow, loadCol), which stores A[aRow*K + aCol] with
aRow = groupID.x*T + loadRow and aCol = tile*T + loadCol, UNMASKED (the
masked load is only a comment in the source). -/
def m2AsEntry (K T : Nat) (A : List Int) (gx tile i j : Nat) : Int :=
  A.getD ((gx * T + i) * K + (tile * T + j)) 0

/-- m2BsEntry is the value held by shared tile slot loadCol*T + loadRow of Bs
after the cooperative load of tile `tile` in the variant-2 kernel: the lane
(loadRow, loadCol) stores B[bRow*K + bCol] with bRow = groupID.y*T + loadCol
and bCol = tile*T + loadRow, UNMASKED; so slot (c, k) holds
B[(groupID.y*T + c)*K + tile*T + k]. -/
def m2BsEntry (K T : Nat) (B : List Int) (gy tile c k : Nat) : Int :=
  B.getD ((gy * T + c) * K + (tile * T + k)) 0

/-- matmul2Total embeds the accumulation of the variant-2 kernel: over all
tiles, the lane (loadRow, loadCol) adds As[loadRow*T + k] * Bs[loadCol*T + k]
for k < T, with the barrier-delimited tile contents given by m2AsEntry and
m2BsEntry. -/
def matmul2Total (K T : Nat) (A B : List Int) (gx gy loadRow loadCol : Nat) :
    Int :=
  ∑ tile ∈ Finset.range (numTiles K T), ∑ k ∈ Finset.range T,
    m2AsEntry K T A gx tile loadRow k * m2BsEntry K T B gy tile loadCol k

/-- matmul2Write embeds the tail of the variant-2 kernel: after the loop, a
lane with row >= M or col >= N returns without writing; otherwise it writes
total to C[row*N + col], where row = groupID.x*T + loadRow and
col = groupID.y*T + loadCol. -/
def matmul2Write (M K N T : Nat) (A B : List Int)
    (gx gy loadRow loadCol : Nat) : Option (Nat × Int) :=
  if M ≤ gx * T + loadRow ∨ N ≤ gy * T + loadCol then none
  else some ((gx * T + loadRow) * N + (gy * T + loadCol),
    matmul2Total K T A B gx gy loadRow loadCol)

/-- Ev is the alphabet of host-visible events of the runTest dispatch loop:
creating a completion signal (a promise/future pair), submitting dispatch i,
blocking on signal i, and resetting the command buffer after iteration i. -/
inductive Ev where
  | createSignal : Nat → Ev
  | dispatch : Nat → Ev
  | waitSignal : Nat → Ev
  | resetCmd : Nat → Ev
deriving DecidableEq

/-- iterEvents embeds the body of the runTest timing loop, iteration i:
dispatchKernel(ctx, kernel, promises[i]); wait(ctx, futures[i]);
resetCommandBuffer(ctx.device, kernel). -/
def iterEvents (i : Nat) : List Ev :=
  [Ev.dispatch i, Ev.waitSignal i, Ev.resetCmd i]

/-- loopEvents is the event sequence of the runTest timing loop over n
iterations. -/
def loopEvents (n : Nat) : List Ev := (List.range n).flatMap iterEvents

/-- runTrace embeds the event sequence of runTest's benchmark section as the
SOURCE orders it: all n promise/future pairs are pre-allocated BEFORE the
timing loop (the "pre-allocate promises and futures" loop), then the timing
loop runs dispatch, wait, reset per iteration. -/
def runTrace (n : Nat) : List Ev :=
  (List.range n).map Ev.createSignal ++ loopEvents n

/-- claimedTrace is the event sequence as the CLAIM words it, for refinement
comparison: "in every iteration it creates a completion signal, submits the
kernel against that signal, blocks until the signal fires, and resets the
per-dispatch command-recording resource". -/
def claimedTrace (n : Nat) : List Ev :=
  (List.range n).flatMap (fun i => Ev.createSignal i :: iterEvents i)

/-- isDispatchEv recognises dispatch events. -/
def isDispatchEv : Ev → Bool
  | Ev.dispatch _ => true
  | _ => false

/-- isWaitEv recognises wait events. -/
def isWaitEv : Ev → Bool
  | Ev.waitSignal _ => true
  | _ => false

/-- RunModel captures the parts of a runTest invocation the safety claim is
about: whether any shader source was rendered and compiled into the Kernel
(none means the Kernel is the default-constructed, never-compiled one), the
dispatch grid handed to createKernel, and the benchmark-section event trace. -/
structure RunModel where
  compiled : Option ShaderCode
  nWorkgroups : Shape
  events : List Ev

/-- runTestModel embeds the control flow of runTest: the version selector is
checked only against 1, 2 and 3 (an if / else-if chain with no else branch);
whichever branch runs, the function then unconditionally executes the
nIter = 4 dispatch loop on the Kernel variable.  The three kernel templates
are parameters standing for the global template strings. -/
def runTestModel (version : Int) (t1 t2 t3 : List Char) (M K N : Nat) :
    RunModel :=
  if version = 1 then
    { compiled := some (createMatmul1 t1 M K N ⟨16, 16, 1⟩ NumType.kf32),
      nWorkgroups := cdivShape ⟨M, N, 1⟩ ⟨16, 16, 1⟩,
      events := runTrace 4 }
  else if version = 2 then
    { compiled := some (createMatmul2 t2 M K N ⟨256, 1, 1⟩ NumType.kf32),
      nWorkgroups := cdivShape ⟨M, N, 1⟩ ⟨16, 16, 1⟩,
      events := runTrace 4 }
  else if version = 3 then
    { compiled := some (createMatmul3 t3 M K N 4 4 4 1 ⟨16, 1, 1⟩ NumType.kf32),
      nWorkgroups := grid3 M N 4 4 1,
      events := runTrace 4 }
  else
    { compiled := none,
      nWorkgroups := ⟨0, 0, 0⟩,
      events := runTrace 4 }

/-- strReplaceF_of_not_occurs: replacement is the identity on a text in which
the pattern does not occur. -/
theorem strReplaceF_of_not_occurs (p r : List Char) :
    ∀ (fuel : Nat) (t : List Char), occursTok p t = false →
      strReplaceF p r fuel t = t := by
  intro fuel
  induction fuel with
  | zero => intro t _; rfl
  | succ fuel ih =>
    intro t h
    cases t with
    | nil => rfl
    | cons c rest =>
      have h' : strStarts p (c :: rest) = false ∧ occursTok p rest = false := by
        have := h
        simp [occursTok] at this
        exact this
      simp [strReplaceF, h'.1, ih rest h'.2]

/-- strReplace_of_not_occurs: same statement for the fuelled wrapper. -/
theorem strReplace_of_not_occurs (p r t : List Char)
    (h : occursTok p t = false) : strReplace p r t = t :=
  strReplaceF_of_not_occurs p r t.length t h

/-- strStarts_refl: every pattern is a prefix of itself. -/
theorem strStarts_refl : ∀ p : List Char, strStarts p p = true := by
  intro p
  induction p with
  | nil => rfl
  | cons c cs ih => simp [strStarts, ih]

/-- strReplaceF_nil: replacement on the empty text is empty, at any fuel. -/
theorem strReplaceF_nil (p r : List Char) :
    ∀ fuel, strReplaceF p r fuel [] = [] := by
  intro fuel
  cases fuel <;> rfl

/-- strReplace_exact: replacing a nonempty pattern inside the pattern itself
yields exactly the replacement. -/
theorem strReplace_exact (c : Char) (p r : List Char) :
    strReplace (c :: p) r (c :: p) = r := by
  show strReplaceF (c :: p) r (c :: p).length (c :: p) = r
  have hcond : (strStarts (c :: p) (c :: p) && !(c :: p).isEmpty) = true := by
    simp [strStarts_refl, List.isEmpty]
  simp only [List.length_cons, strReplaceF, hcond, if_true]
  have hdrop : List.drop (p.length + 1 - 1) p = [] := by
    simp [List.drop_length]
  rw [hdrop, strReplaceF_nil, List.append_nil]

/-- replaceAll_cons_skip: a substitution pair whose pattern does not occur in
the current text leaves the text unchanged, so it can be peeled off. -/
theorem replaceAll_cons_skip (p v : List Char) (ps : List (List Char × List Char))
    (s : List Char) (h : occursTok p s = false) :
    replaceAll ((p, v) :: ps) s = replaceAll ps s := by
  show replaceAll ps (strReplace p v s) = replaceAll ps s
  rw [strReplace_of_not_occurs _ _ _ h]

/-- Claim C10: the GFLOP/s metric is computed from the elapsed time truncated
to whole milliseconds; whenever all dispatches complete in under one
millisecond the truncated count is zero, the throughput computation divides by
zero, and the reported metric is not a finite number. -/
theorem gflopsDivZeroNotFinite (M N K nIter ns : Nat) (h : ns < 1000000) :
    fdiv (FVal.fin ((elapsedMs ns : Nat) : Rat)) (FVal.fin 1000) = FVal.fin 0 ∧
    isFiniteF (gflopsReported M N K nIter (elapsedMs ns)) = false := by
  have hms : elapsedMs ns = 0 := Nat.div_eq_of_lt h
  rw [hms]
  have hdivisor : fdiv (FVal.fin ((0 : Nat) : Rat)) (FVal.fin 1000) = FVal.fin 0 := by
    norm_num [fdiv]
  refine ⟨hdivisor, ?_⟩
  unfold gflopsReported
  rw [hdivisor]
  by_cases hn : ((flopsNumerator M N K : Nat) : Rat) = 0
  · simp [fdiv, fmul, isFiniteF, hn]
  · by_cases hi : ((nIter : Nat) : Rat) = 0
    · simp [fdiv, fmul, isFiniteF, hn, hi]
    · simp [fdiv, fmul, isFiniteF, hn, hi]

/-- Claim C10 witness: a run of 4 dispatches on a 64-cubed problem finishing
in 999999 nanoseconds reports a non-finite metric. -/
theorem gflopsDivZeroNotFiniteWitness :
    fdiv (FVal.fin ((elapsedMs 999999 : Nat) : Rat)) (FVal.fin 1000) = FVal.fin 0 ∧
    isFiniteF (gflopsReported 64 64 64 4 (elapsedMs 999999)) = false :=
  gflopsDivZeroNotFinite 64 64 64 4 999999 (by norm_num)

/-- Claim C6: the Template Engine is deterministic: two invocations of source
generation (createMatmul1, createMatmul2) with identical parameters yield
byte-identical source text.  This holds because the embedded generators are
pure functions of their parameters; the source reads no ambient state. -/
theorem templateEngineDeterministic (t : List Char) (M K N : Nat) (w : Shape)
    (p : NumType) (M' K' N' : Nat) (w' : Shape) (p' : NumType)
    (h : (M, K, N, w, p) = (M', K', N', w', p')) :
    (createMatmul1 t M K N w p).code = (createMatmul1 t M' K' N' w' p').code ∧
    (createMatmul2 t M K N w p).code = (createMatmul2 t M' K' N' w' p').code := by
  simp only [Prod.mk.injEq] at h
  obtain ⟨rfl, rfl, rfl, rfl, -⟩ := h
  cases p
  cases p'
  exact ⟨rfl, rfl⟩

/-- Claim C6 witness: determinism instantiated at a concrete configuration. -/
theorem templateEngineDeterministicWitness :
    (createMatmul1 "x".data 1 2 3 ⟨16, 16, 1⟩ NumType.kf32).code
      = (createMatmul1 "x".data 1 2 3 ⟨16, 16, 1⟩ NumType.kf32).code ∧
    (createMatmul2 "x".data 1 2 3 ⟨16, 16, 1⟩ NumType.kf32).code
      = (createMatmul2 "x".data 1 2 3 ⟨16, 16, 1⟩ NumType.kf32).code :=
  templateEngineDeterministic "x".data 1 2 3 ⟨16, 16, 1⟩ NumType.kf32
    1 2 3 ⟨16, 16, 1⟩ NumType.kf32 rfl

/-- Claim C5 counterexample: createMatmul1 applied to a template containing
the unsupplied placeholder token foo raises no error of any kind; it silently
emits source with the placeholder left verbatim, and it also accepts the
non-positive dimension M = 0, returning a well-formed ShaderCode. -/
theorem unresolvedPlaceholderSilent :
    occursTok "\x7b\x7bfoo\x7d\x7d".data
      ((createMatmul1 "\x7b\x7bfoo\x7d\x7d".data 4 4 4 ⟨16, 16, 1⟩ NumType.kf32).code) = true ∧
    (createMatmul1 "\x7b\x7bfoo\x7d\x7d".data 0 4 4 ⟨16, 16, 1⟩ NumType.kf32).code
      = "\x7b\x7bfoo\x7d\x7d".data := by
  decide

/-- Claim C5 (amended): the system performs no validation at source-generation
time: for every parameter assignment (including non-positive dimensions such
as M = 0), a placeholder token with no supplied value is left unresolved
verbatim in the emitted source and no error is raised. -/
theorem templateNoValidation (M K N : Nat) (w : Shape) (p : NumType) :
    (createMatmul1 "\x7b\x7bfoo\x7d\x7d".data M K N w p).code
      = "\x7b\x7bfoo\x7d\x7d".data ∧
    occursTok "\x7b\x7bfoo\x7d\x7d".data
      ((createMatmul1 "\x7b\x7bfoo\x7d\x7d".data M K N w p).code) = true := by
  have h : (createMatmul1 "\x7b\x7bfoo\x7d\x7d".data M K N w p).code
      = "\x7b\x7bfoo\x7d\x7d".data := by
    show replaceAll
      [("\x7b\x7bworkgroupSize\x7d\x7d".data, toStringShape w),
       ("\x7b\x7bprecision\x7d\x7d".data, toStringNumType p),
       ("\x7b\x7bM\x7d\x7d".data, natToChars M),
       ("\x7b\x7bK\x7d\x7d".data, natToChars K),
       ("\x7b\x7bN\x7d\x7d".data, natToChars N)] "\x7b\x7bfoo\x7d\x7d".data
      = "\x7b\x7bfoo\x7d\x7d".data
    rw [replaceAll_cons_skip _ _ _ _ (by decide),
      replaceAll_cons_skip _ _ _ _ (by decide),
      replaceAll_cons_skip _ _ _ _ (by decide),
      replaceAll_cons_skip _ _ _ _ (by decide),
      replaceAll_cons_skip _ _ _ _ (by decide)]
    rfl
  refine ⟨h, ?_⟩
  rw [h]
  decide

/-- Claim C7 counterexample: for the workgroup shape (64, 4, 1), whose total
lane count is 256, the tile size substituted into the generated kernel is 8
(the floor square root of the FIRST component alone), not 16 (the square root
of the total lane count as the claim states). -/
theorem tileSizeFirstComponentCounterexample :
    (createMatmul2 "\x7b\x7btileSize\x7d\x7d".data 1 1 1 ⟨64, 4, 1⟩ NumType.kf32).code
      = "8".data ∧
    specTileSizeSqrtTotal ⟨64, 4, 1⟩ = 16 ∧
    natToChars (specTileSizeSqrtTotal ⟨64, 4, 1⟩) ≠ "8".data := by
  decide

set_option maxHeartbeats 1600000 in
/-- Claim C7 (amended): the tile size substituted into the variant-2 kernel is
the floor square root of the FIRST component of the workgroup Shape, for every
workgroup Shape; this agrees with the square root of the total lane count only
when the other two components are 1. -/
theorem tileSizeFromFirstComponent (M K N : Nat) (w : Shape) (p : NumType) :
    (createMatmul2 "\x7b\x7btileSize\x7d\x7d".data M K N w p).code
      = natToChars (floorSqrt w.x) := by
  show replaceAll
      [("\x7b\x7bworkgroupSize\x7d\x7d".data, toStringShape w),
       ("\x7b\x7bprecision\x7d\x7d".data, toStringNumType p),
       ("\x7b\x7bM\x7d\x7d".data, natToChars M),
       ("\x7b\x7bK\x7d\x7d".data, natToChars K),
       ("\x7b\x7bN\x7d\x7d".data, natToChars N),
       ("\x7b\x7btileSize\x7d\x7d".data, natToChars (floorSqrt w.x))]
      "\x7b\x7btileSize\x7d\x7d".data
    = natToChars (floorSqrt w.x)
  rw [replaceAll_cons_skip _ _ _ _ (by decide),
    replaceAll_cons_skip _ _ _ _ (by decide),
    replaceAll_cons_skip _ _ _ _ (by decide),
    replaceAll_cons_skip _ _ _ _ (by decide),
    replaceAll_cons_skip _ _ _ _ (by decide)]
  show strReplace "\x7b\x7btileSize\x7d\x7d".data (natToChars (floorSqrt w.x))
      "\x7b\x7btileSize\x7d\x7d".data = natToChars (floorSqrt w.x)
  exact strReplace_exact _ _ _

/-- mixedRadix2 is the standard two-digit mixed-radix bound. -/
theorem mixedRadix2 {b B c C : Nat} (hb : b < B) (hc : c < C) :
    b * C + c < B * C := by
  calc b * C + c < b * C + C := by omega
    _ = (b + 1) * C := by ring
    _ ≤ B * C := Nat.mul_le_mul_right C hb

/-- mixedRadix3 is the standard three-digit mixed-radix bound. -/
theorem mixedRadix3 {a A b B c C : Nat} (ha : a < A) (hb : b < B) (hc : c < C) :
    a * (B * C) + b * C + c < A * (B * C) := by
  calc a * (B * C) + b * C + c < a * (B * C) + B * C := by
        have := mixedRadix2 hb hc
        omega
    _ = (a + 1) * (B * C) := by ring
    _ ≤ A * (B * C) := Nat.mul_le_mul_right (B * C) ha

/-- div_lt_cdiv: an element index below n lands in a workgroup index below the
rounded-up workgroup count. -/
theorem div_lt_cdiv {a b n : Nat} (hb : 0 < b) (ha : a < n) :
    a / b < cdiv n b := by
  have h1 : a / b ≤ (n - 1) / b := Nat.div_le_div_right (by omega)
  have h2 : cdiv n b = (n - 1) / b + 1 := by
    unfold cdiv
    rw [show n + b - 1 = (n - 1) + b by omega, Nat.add_div_right _ hb]
  omega

/-- Claim C4 counterexample: for M = 8, N = 4 and block parameters BM = BN = 4,
TM = 2, the variant-3 dispatch grid cdiv(cdiv(M,BM),TM) provides only 1
workgroup row, fewer than ceil(M/BM) = 2, and the output element at row 4,
column 0 is assigned to no lane of any workgroup. -/
theorem grid3UndershootCounterexample :
    (grid3 8 4 4 4 2).x = 1 ∧ cdiv 8 4 = 2 ∧
    ¬ (cdiv 8 4 ≤ (grid3 8 4 4 4 2).x) ∧
    (∀ cRow < (grid3 8 4 4 4 2).x, ∀ idx < wgLanes 4 4 2, ∀ resIdx < 2,
      ¬ (laneRow 4 4 2 cRow idx resIdx = 4 ∧ laneCol 4 0 idx = 0)) := by
  decide

/-- Claim C4 (amended): with TM = 1 (the value run.cpp hardcodes for the
variant-3 call site), the dispatch grid equals (ceil(M/BM), ceil(N/BN), 1) and
every output element of the M x N matrix C is assigned to some lane of some
workgroup; the TM division in the grid formula undershoots for TM > 1. -/
theorem grid3CoversOutputTMOne (M N BM BN i j : Nat) (hBM : 0 < BM)
    (hBN : 0 < BN) (hi : i < M) (hj : j < N) :
    (grid3 M N BM BN 1).x = cdiv M BM ∧ (grid3 M N BM BN 1).y = cdiv N BN ∧
    ∃ cRow cCol idx resIdx,
      cRow < (grid3 M N BM BN 1).x ∧ cCol < (grid3 M N BM BN 1).y ∧
      idx < wgLanes BM BN 1 ∧ resIdx < 1 ∧
      laneRow BM BN 1 cRow idx resIdx = i ∧ laneCol BN cCol idx = j := by
  have hx : (grid3 M N BM BN 1).x = cdiv M BM := by
    show cdiv (cdiv M BM) 1 = cdiv M BM
    unfold cdiv
    rw [Nat.add_sub_cancel, Nat.div_one]
  have hy : (grid3 M N BM BN 1).y = cdiv N BN := rfl
  have hdiv : ((i % BM) * BN + j % BN) / BN = i % BM := by
    rw [Nat.mul_comm, Nat.mul_add_div hBN, Nat.div_eq_of_lt (Nat.mod_lt _ hBN),
      Nat.add_zero]
  have hmod : ((i % BM) * BN + j % BN) % BN = j % BN := by
    rw [Nat.mul_comm, Nat.mul_add_mod]
    exact Nat.mod_mod_of_dvd j dvd_rfl
  refine ⟨hx, hy, i / BM, j / BN, (i % BM) * BN + j % BN, 0, ?_, ?_, ?_, by omega,
    ?_, ?_⟩
  · rw [hx]
    exact div_lt_cdiv hBM hi
  · rw [hy]
    exact div_lt_cdiv hBN hj
  · show (i % BM) * BN + j % BN < BM * BN / 1
    rw [Nat.div_one]
    exact mixedRadix2 (Nat.mod_lt _ hBM) (Nat.mod_lt _ hBN)
  · show i / BM * BM + ((i % BM) * BN + j % BN) / BN * 1 + 0 = i
    rw [hdiv]
    calc i / BM * BM + i % BM * 1 + 0 = BM * (i / BM) + i % BM := by ring
      _ = i := Nat.div_add_mod i BM
  · show j / BN * BN + ((i % BM) * BN + j % BN) % BN = j
    rw [hmod]
    calc j / BN * BN + j % BN = BN * (j / BN) + j % BN := by ring
      _ = j := Nat.div_add_mod j BN

/-- Claim C4 witness: with M = 3, N = 5, BM = BN = 2, the element at row 2,
column 4 is covered by the TM = 1 grid. -/
theorem grid3CoversOutputTMOneWitness :
    (grid3 3 5 2 2 1).x = cdiv 3 2 ∧ (grid3 3 5 2 2 1).y = cdiv 5 2 ∧
    ∃ cRow cCol idx resIdx,
      cRow < (grid3 3 5 2 2 1).x ∧ cCol < (grid3 3 5 2 2 1).y ∧
      idx < wgLanes 2 2 1 ∧ resIdx < 1 ∧
      laneRow 2 2 1 cRow idx resIdx = 2 ∧ laneCol 2 cCol idx = 4 :=
  grid3CoversOutputTMOne 3 5 2 2 2 4 (by omega) (by omega) (by omega) (by omega)

/-- Claim C2 counterexample: with the block parameters run.cpp uses
(BM = BK = BN = 4, TM = 1) and M = 5, K = 4, N = 4 (M not a multiple of the
block size), workgroup row 1 exists in the dispatch grid and its lane 15
writes C at index 31 >= M*N = 20 and reads A at index 31 >= M*K = 20: the
variant-3 kernel does perform out-of-range accesses, because only the
accumulated value is masked, not the loads and stores themselves. -/
theorem matmul3OutOfBoundsCounterexample :
    ¬ (4 ∣ 5) ∧
    1 < (grid3 5 4 4 4 1).x ∧ 15 < wgLanes 4 4 1 ∧ 0 < cdiv 4 4 ∧
    m3CIndex 4 4 4 1 1 0 15 0 = 31 ∧ ¬ (m3CIndex 4 4 4 1 1 0 15 0 < 5 * 4) ∧
    m3AIndex 4 4 4 1 0 15 = 31 ∧ ¬ (m3AIndex 4 4 4 1 0 15 < 5 * 4) := by
  decide

/-- Claim C2 (amended): for the block parameters run.cpp uses
(BM = BK = BN = 4, TM = 1), when BM, BK, BN divide M, K, N respectively,
every A read, B read and C write of every lane of every dispatched workgroup
is within the extents M*K, N*K and M*N; for non-divisible dimensions the
unguarded loads and stores can fall outside the extents (see the
counterexample), since the kernel masks only the accumulated value. -/
theorem matmul3InBoundsOfDvd (M K N cRow cCol t idx resIdx : Nat)
    (hM : 4 ∣ M) (hK : 4 ∣ K) (hN : 4 ∣ N)
    (hcRow : cRow < (grid3 M N 4 4 1).x) (hcCol : cCol < (grid3 M N 4 4 1).y)
    (ht : t < cdiv K 4) (hidx : idx < wgLanes 4 4 1) (hres : resIdx < 1) :
    m3AIndex K 4 4 cRow t idx < M * K ∧ m3BIndex K 4 4 cCol t idx < N * K ∧
    m3CIndex N 4 4 1 cRow cCol idx resIdx < M * N := by
  obtain ⟨m, rfl⟩ := hM
  obtain ⟨kq, rfl⟩ := hK
  obtain ⟨nq, rfl⟩ := hN
  have hcRow' : cRow < m := by
    have hg : (grid3 (4 * m) (4 * nq) 4 4 1).x = m := by
      show cdiv (cdiv (4 * m) 4) 1 = m
      unfold cdiv
      omega
    omega
  have hcCol' : cCol < nq := by
    have hg : (grid3 (4 * m) (4 * nq) 4 4 1).y = nq := by
      show cdiv (4 * nq) 4 = nq
      unfold cdiv
      omega
    omega
  have ht' : t < kq := by
    have hg : cdiv (4 * kq) 4 = kq := by
      unfold cdiv
      omega
    omega
  have hidx' : idx < 16 := by
    have hg : wgLanes 4 4 1 = 16 := rfl
    omega
  have hb : idx / 4 < 4 := by omega
  have hres' : resIdx = 0 := by omega
  subst hres'
  refine ⟨?_, ?_, ?_⟩
  · have hc : t * 4 + idx % 4 < 4 * kq := by omega
    calc m3AIndex (4 * kq) 4 4 cRow t idx
        = cRow * (4 * (4 * kq)) + (idx / 4) * (4 * kq) + (t * 4 + idx % 4) := by
          unfold m3AIndex; ring
      _ < m * (4 * (4 * kq)) := mixedRadix3 hcRow' hb hc
      _ = (4 * m) * (4 * kq) := by ring
  · have hc : t * 4 + idx % 4 < 4 * kq := by omega
    calc m3BIndex (4 * kq) 4 4 cCol t idx
        = cCol * (4 * (4 * kq)) + (idx / 4) * (4 * kq) + (t * 4 + idx % 4) := by
          unfold m3BIndex; ring
      _ < nq * (4 * (4 * kq)) := mixedRadix3 hcCol' hb hc
      _ = (4 * nq) * (4 * kq) := by ring
  · have hc : cCol * 4 + idx % 4 < 4 * nq := by omega
    calc m3CIndex (4 * nq) 4 4 1 cRow cCol idx 0
        = cRow * (4 * (4 * nq)) + (idx / 4) * (4 * nq) + (cCol * 4 + idx % 4) := by
          unfold m3CIndex; ring
      _ < m * (4 * (4 * nq)) := mixedRadix3 hcRow' hb hc
      _ = (4 * m) * (4 * nq) := by ring

/-- Claim C2 witness: the in-bounds theorem instantiated at M = K = N = 4,
workgroup (0, 0), chunk 0, lane 15, accumulator 0. -/
theorem matmul3InBoundsOfDvdWitness :
    m3AIndex 4 4 4 0 0 15 < 4 * 4 ∧ m3BIndex 4 4 4 0 0 15 < 4 * 4 ∧
    m3CIndex 4 4 4 1 0 0 15 0 < 4 * 4 :=
  matmul3InBoundsOfDvd 4 4 4 0 0 0 15 0 (by decide) (by decide) (by decide)
    (by decide) (by decide) (by decide) (by decide) (by decide)

/-- Claim C3: for every M, K, N >= 1 and every lane of the variant-1 kernel,
a lane with row >= M or col >= N performs no write and returns immediately,
and every lane with row < M and col < N writes exactly
C[row*N + col] = sum over k < K of A[row*K+k] * B[col*K+k], reading B in its
transposed N x K row-major layout. -/
theorem matmul1LaneCorrect (M K N : Nat) (A B : List Int) (row col : Nat)
    (hM : 1 ≤ M) (hK : 1 ≤ K) (hN : 1 ≤ N) :
    ((M ≤ row ∨ N ≤ col) → matmul1Lane M K N A B row col = none) ∧
    (row < M → col < N →
      matmul1Lane M K N A B row col
        = some (row * N + col, specMatmulEntry K A B row col)) := by
  constructor
  · intro h
    unfold matmul1Lane
    rw [if_pos h]
  · intro h1 h2
    have hsum : matmul1Total K A B row col = specMatmulEntry K A B row col := by
      unfold matmul1Total specMatmulEntry
      obtain ⟨k0, rfl⟩ : ∃ k0, K = k0 + 1 := ⟨K - 1, by omega⟩
      rw [Finset.sum_range_succ']
      simp only [Nat.add_sub_cancel, Nat.add_zero]
      exact add_comm _ _
    unfold matmul1Lane
    rw [if_neg (by omega), hsum]

/-- Claim C3 witness: a 1 x 2 by 2 x 1 product evaluated at the only lane. -/
theorem matmul1LaneCorrectWitness :
    matmul1Lane 1 2 1 [2, 3] [5, 7] 0 0
      = some (0 * 1 + 0, specMatmulEntry 2 [2, 3] [5, 7] 0 0) :=
  (matmul1LaneCorrect 1 2 1 [2, 3] [5, 7] 0 0 (by omega) (by omega)
    (by omega)).2 (by omega) (by omega)

/-- sum_range_add_eq splits a sum over an index range a + b. -/
theorem sum_range_add_eq (f : Nat → Int) (a b : Nat) :
    ∑ i ∈ Finset.range (a + b), f i
      = (∑ i ∈ Finset.range a, f i) + ∑ j ∈ Finset.range b, f (a + j) := by
  induction b with
  | zero => simp
  | succ b ih =>
    rw [show a + (b + 1) = (a + b) + 1 from rfl, Finset.sum_range_succ, ih,
      Finset.sum_range_succ]
    ring

/-- sum_tiles reindexes a tiled double sum as a single sum, the heart of the
correctness of the variant-2 tiling loop when T divides K. -/
theorem sum_tiles (f : Nat → Int) (q T : Nat) :
    ∑ tile ∈ Finset.range q, ∑ k ∈ Finset.range T, f (tile * T + k)
      = ∑ m ∈ Finset.range (q * T), f m := by
  induction q with
  | zero => simp
  | succ q ih =>
    rw [Finset.sum_range_succ, ih, Nat.succ_mul, sum_range_add_eq]

/-- Claim C1 counterexample: with T = 2 and M = 2, K = 1, N = 2 (K not a
multiple of T), A = B = [1, 1], the variant-2 kernel's lane (0, 0) of
workgroup (0, 0) — which exists, since the dispatch grid has cdiv 2 2 > 0
workgroup rows — writes value 2 to C[0], while the contract value
sum over k < K of A[k]*B[k] is 1: the generated (unmasked) kernel is NOT
correct for dimensions that are not multiples of T.  Every buffer read
involved is in range, so this does not depend on the out-of-range default. -/
theorem matmul2UnmaskedCounterexample :
    ¬ (2 ∣ 1) ∧ 0 < cdiv 2 2 ∧
    matmul2Write 2 1 2 2 [1, 1] [1, 1] 0 0 0 0 = some (0, 2) ∧
    specMatmulEntry 1 [1, 1] [1, 1] 0 0 = 1 ∧ ((2 : Int) ≠ 1) := by
  decide

/-- Claim C1 (amended): the variant-2 kernel as generated performs UNMASKED
tile loads (the boolean-guard masked loads appear only as comments in the
template), and it computes every in-range output
C[row*N+col] = sum over k < K of A[row*K+k]*B[col*K+k] when the tile size T
divides M, K and N — the condition the source comment states; for dimensions
that are not multiples of T it can produce incorrect values (see the
counterexample). -/
theorem matmul2CorrectOfDvd (M K N T : Nat) (A B : List Int)
    (gx gy loadRow loadCol : Nat) (hT : 0 < T) (hM : T ∣ M) (hK : T ∣ K)
    (hN : T ∣ N) (hrow : gx * T + loadRow < M) (hcol : gy * T + loadCol < N) :
    matmul2Write M K N T A B gx gy loadRow loadCol
      = some ((gx * T + loadRow) * N + (gy * T + loadCol),
          specMatmulEntry K A B (gx * T + loadRow) (gy * T + loadCol)) := by
  obtain ⟨q, hq⟩ := hK
  have hnum : numTiles K T = q := by
    unfold numTiles
    rw [hq, show T * q + T - 1 = T * q + (T - 1) by omega, Nat.mul_add_div hT,
      Nat.div_eq_of_lt (by omega), Nat.add_zero]
  have hqT : q * T = K := by
    rw [hq, Nat.mul_comm]
  have hval : matmul2Total K T A B gx gy loadRow loadCol
      = specMatmulEntry K A B (gx * T + loadRow) (gy * T + loadCol) := by
    unfold matmul2Total specMatmulEntry m2AsEntry m2BsEntry
    calc ∑ tile ∈ Finset.range (numTiles K T), ∑ k ∈ Finset.range T,
          A.getD ((gx * T + loadRow) * K + (tile * T + k)) 0 *
            B.getD ((gy * T + loadCol) * K + (tile * T + k)) 0
        = ∑ tile ∈ Finset.range q, ∑ k ∈ Finset.range T,
            A.getD ((gx * T + loadRow) * K + (tile * T + k)) 0 *
              B.getD ((gy * T + loadCol) * K + (tile * T + k)) 0 := by
          rw [hnum]
      _ = ∑ m ∈ Finset.range (q * T),
            A.getD ((gx * T + loadRow) * K + m) 0 *
              B.getD ((gy * T + loadCol) * K + m) 0 :=
          sum_tiles (fun m => A.getD ((gx * T + loadRow) * K + m) 0 *
            B.getD ((gy * T + loadCol) * K + m) 0) q T
      _ = ∑ m ∈ Finset.range K,
            A.getD ((gx * T + loadRow) * K + m) 0 *
              B.getD ((gy * T + loadCol) * K + m) 0 := by
          rw [hqT]
  unfold matmul2Write
  rw [if_neg (by omega), hval]

/-- Claim C1 witness: a 2 x 2 product with T = 2 at lane (0, 1) of workgroup
(0, 0). -/
theorem matmul2CorrectOfDvdWitness :
    matmul2Write 2 2 2 2 [1, 2, 3, 4] [5, 6, 7, 8] 0 0 0 1
      = some ((0 * 2 + 0) * 2 + (0 * 2 + 1),
          specMatmulEntry 2 [1, 2, 3, 4] [5, 6, 7, 8] (0 * 2 + 0) (0 * 2 + 1)) :=
  matmul2CorrectOfDvd 2 2 2 2 [1, 2, 3, 4] [5, 6, 7, 8] 0 0 0 1 (by omega)
    (by decide) (by decide) (by decide) (by omega) (by omega)

/-- loopEvents_succ peels the last loop iteration. -/
theorem loopEvents_succ (n : Nat) :
    loopEvents (n + 1) = loopEvents n ++ iterEvents n := by
  unfold loopEvents
  rw [List.range_succ]
  simp

/-- loopEvents_length: each iteration contributes three events. -/
theorem loopEvents_length (n : Nat) : (loopEvents n).length = 3 * n := by
  induction n with
  | zero => rfl
  | succ n ih =>
    rw [loopEvents_succ, List.length_append, ih]
    simp [iterEvents]
    omega

/-- loopEvents_countD: the loop submits exactly one dispatch per iteration. -/
theorem loopEvents_countD (n : Nat) :
    (loopEvents n).countP isDispatchEv = n := by
  induction n with
  | zero => rfl
  | succ n ih =>
    rw [loopEvents_succ, List.countP_append, ih]
    simp [iterEvents, List.countP_cons, isDispatchEv]

/-- loopEvents_countW: the loop waits exactly once per iteration. -/
theorem loopEvents_countW (n : Nat) :
    (loopEvents n).countP isWaitEv = n := by
  induction n with
  | zero => rfl
  | succ n ih =>
    rw [loopEvents_succ, List.countP_append, ih]
    simp [iterEvents, List.countP_cons, isWaitEv]

/-- loopEvents_take_bound: on every prefix of the timing loop, the number of
dispatches exceeds the number of completed waits by at most one — i.e. at
most one dispatch is outstanding at any point. -/
theorem loopEvents_take_bound (n k : Nat) :
    ((loopEvents n).take k).countP isDispatchEv
      ≤ ((loopEvents n).take k).countP isWaitEv + 1 := by
  induction n generalizing k with
  | zero =>
    simp [loopEvents]
  | succ n ih =>
    rw [loopEvents_succ, List.take_append_eq_append_take, List.countP_append,
      List.countP_append]
    by_cases hk : k ≤ (loopEvents n).length
    · have h0 : k - (loopEvents n).length = 0 := by omega
      rw [h0]
      simpa using ih k
    · have hfull : (loopEvents n).take k = loopEvents n :=
        List.take_of_length_le (by omega)
      rw [hfull, loopEvents_countD, loopEvents_countW]
      rcases he : k - (loopEvents n).length with _ | _ | _ | e
      · omega
      · simp [iterEvents, List.countP_cons, isDispatchEv, isWaitEv]
      · simp [iterEvents, List.countP_cons, isDispatchEv, isWaitEv]
      · have : (iterEvents n).take (e + 3) = iterEvents n :=
          List.take_of_length_le (by simp [iterEvents])
        rw [this]
        simp [iterEvents, List.countP_cons, isDispatchEv, isWaitEv]

/-- countP_create_mapD: signal-creation events are not dispatches. -/
theorem countP_create_mapD (l : List Nat) :
    (l.map Ev.createSignal).countP isDispatchEv = 0 := by
  induction l with
  | nil => rfl
  | cons a l ih => simp [List.countP_cons, isDispatchEv, ih]

/-- countP_create_mapW: signal-creation events are not waits. -/
theorem countP_create_mapW (l : List Nat) :
    (l.map Ev.createSignal).countP isWaitEv = 0 := by
  induction l with
  | nil => rfl
  | cons a l ih => simp [List.countP_cons, isWaitEv, ih]

/-- Claim C8 counterexample: for n = 2 iterations the source's event order is
not the claimed one: both completion signals are created BEFORE the first
dispatch (runTest pre-allocates the promise/future arrays before the timing
loop), whereas the claim puts a signal creation inside every iteration. -/
theorem preallocatedSignalsCounterexample :
    runTrace 2 ≠ claimedTrace 2 ∧
    runTrace 2 = [Ev.createSignal 0, Ev.createSignal 1, Ev.dispatch 0,
      Ev.waitSignal 0, Ev.resetCmd 0, Ev.dispatch 1, Ev.waitSignal 1,
      Ev.resetCmd 1] ∧
    claimedTrace 2 = [Ev.createSignal 0, Ev.dispatch 0, Ev.waitSignal 0,
      Ev.resetCmd 0, Ev.createSignal 1, Ev.dispatch 1, Ev.waitSignal 1,
      Ev.resetCmd 1] := by
  decide

/-- Claim C8 (amended): runTest pre-allocates all n completion signals before
the timing loop; each iteration then submits one dispatch against its own
pre-created signal, blocks until it fires, and resets the command buffer
before the next submission.  Strict sequentiality holds: every dispatch is
waited on (n dispatches, n waits) and on every prefix of the trace at most
one dispatch is outstanding. -/
theorem dispatchLoopSequential (n k : Nat) :
    (runTrace n).countP isDispatchEv = n ∧
    (runTrace n).countP isWaitEv = n ∧
    ((runTrace n).take k).countP isDispatchEv
      ≤ ((runTrace n).take k).countP isWaitEv + 1 := by
  refine ⟨?_, ?_, ?_⟩
  · unfold runTrace
    rw [List.countP_append, countP_create_mapD, loopEvents_countD]
    omega
  · unfold runTrace
    rw [List.countP_append, countP_create_mapW, loopEvents_countW]
    omega
  · unfold runTrace
    rw [List.take_append_eq_append_take, List.countP_append, List.countP_append]
    have h1 : (((List.range n).map Ev.createSignal).take k).countP isDispatchEv
        = 0 := by
      rw [← List.map_take, countP_create_mapD]
    have h2 : (((List.range n).map Ev.createSignal).take k).countP isWaitEv
        = 0 := by
      rw [← List.map_take, countP_create_mapW]
    rw [h1, h2]
    have := loopEvents_take_bound n (k - ((List.range n).map Ev.createSignal).length)
    omega

/-- Claim C9: the variant selector is an unchecked precondition: for every
version outside 1, 2, 3, runTest renders no template and compiles no kernel
(compiled = none), yet the timing loop still dispatches the never-compiled
default Kernel all four times. -/
theorem runTestUncheckedVersion (version : Int) (t1 t2 t3 : List Char)
    (M K N : Nat) (h1 : version ≠ 1) (h2 : version ≠ 2) (h3 : version ≠ 3) :
    (runTestModel version t1 t2 t3 M K N).compiled = none ∧
    ∀ i < 4, Ev.dispatch i ∈ (runTestModel version t1 t2 t3 M K N).events := by
  unfold runTestModel
  rw [if_neg h1, if_neg h2, if_neg h3]
  exact ⟨rfl, by decide⟩

/-- Claim C9 witness: version 0 compiles nothing and still dispatches. -/
theorem runTestUncheckedVersionWitness :
    (runTestModel 0 [] [] [] 8 8 8).compiled = none ∧
    ∀ i < 4, Ev.dispatch i ∈ (runTestModel 0 [] [] [] 8 8 8).events :=
  runTestUncheckedVersion 0 [] [] [] 8 8 8 (by decide) (by decide) (by decide)
